import Mathlib

/-!
Verification of the sitesense video re-encoding pipeline scripts.

Shallow embedding of the four prototype scripts:
  - src/python-video-fix.py        (ensure_even_dimensions, process_video_advanced,
                                    encode_with_ffmpeg, apply_object_effects)
  - src/ultimate-video-processor.py (BrowserCompatibleVideoProcessor: check_ffmpeg_available,
                                    process_with_opencv_fallback, _apply_opencv_effects,
                                    process_video)
  - src/simple-video-processor.py  (create_browser_compatible_video, try_opencv_basic_encode)
  - src/fixed_video_route.py       (detect_video route)

Python integers are modelled as Int (Python `%` on negatives agrees with Int.emod),
frames as lists of rows of BGR pixel triples, and the effectful parts (subprocess
calls, file system, exceptions) as explicit outcome/state values.
-/

namespace SiteSense

/-! ## Dimension normalizer

Source: src/python-video-fix.py lines 16-19 (`ensure_even_dimensions`); the same
function appears verbatim as a method in src/ultimate-video-processor.py lines 27-30
and inlined in src/fixed_video_route.py lines 30-33 and src/simple-video-processor.py
lines 96-97. -/

/-- Embedding of `ensure_even_dimensions` from src/python-video-fix.py:16-19:
returns `(width if width % 2 == 0 else width - 1, height if height % 2 == 0 else height - 1)`.
Python `%` on Int agrees with Lean `Int.emod`. -/
def ensure_even_dimensions (width height : Int) : Int × Int :=
  (if width % 2 = 0 then width else width - 1,
   if height % 2 = 0 then height else height - 1)

/-- C4: for even-even input the normalizer is the identity; always both output
components are even; each component is no greater than the input; an odd component
is decremented by exactly 1 and an even component is returned unchanged (never
incremented). -/
theorem c4_normalizer_even_identity_odd_decrement (w h : Int) :
    (w % 2 = 0 → h % 2 = 0 → ensure_even_dimensions w h = (w, h)) ∧
    (ensure_even_dimensions w h).1 % 2 = 0 ∧
    (ensure_even_dimensions w h).2 % 2 = 0 ∧
    (ensure_even_dimensions w h).1 ≤ w ∧
    (ensure_even_dimensions w h).2 ≤ h ∧
    (w % 2 ≠ 0 → (ensure_even_dimensions w h).1 = w - 1) ∧
    (w % 2 = 0 → (ensure_even_dimensions w h).1 = w) ∧
    (h % 2 ≠ 0 → (ensure_even_dimensions w h).2 = h - 1) ∧
    (h % 2 = 0 → (ensure_even_dimensions w h).2 = h) := by
  unfold ensure_even_dimensions
  by_cases hw : w % 2 = 0 <;> by_cases hh : h % 2 = 0 <;>
    simp [hw, hh] <;> omega

/-- Witness for C4 at the concrete input (3, 4): the odd width is decremented to 2. -/
theorem c4_normalizer_witness :
    ((3 : Int) % 2 = 0 → (4 : Int) % 2 = 0 → ensure_even_dimensions 3 4 = (3, 4)) ∧
    (ensure_even_dimensions 3 4).1 = 3 - 1 := by
  refine ⟨(c4_normalizer_even_identity_odd_decrement 3 4).1, ?_⟩
  exact (c4_normalizer_even_identity_odd_decrement 3 4).2.2.2.2.2.1 (by decide)

/-- Counterexample for C5: `ensure_even_dimensions` at input (1, 1) returns the
degenerate pair (0, 0) — a zero width and height — instead of failing; the
function is total (a plain pair-valued function) and no `InvalidGeometry` error
exists anywhere in the code. -/
theorem c5_counterexample_returns_zero :
    ensure_even_dimensions 1 1 = (0, 0) := by decide

/-- C5 amended: the dimension normalizer performs no geometry validation; for
every input with width ≤ 1 it returns a width ≤ 0 (and symmetrically for
height), rather than failing with any error. -/
theorem c5_amended_no_validation (w h : Int) :
    (w ≤ 1 → (ensure_even_dimensions w h).1 ≤ 0) ∧
    (h ≤ 1 → (ensure_even_dimensions w h).2 ≤ 0) := by
  unfold ensure_even_dimensions
  by_cases hw : w % 2 = 0 <;> by_cases hh : h % 2 = 0 <;>
    simp [hw, hh] <;> omega

/-- Witness for the amended C5 at the concrete input (1, 5). -/
theorem c5_amended_witness :
    (ensure_even_dimensions 1 5).1 ≤ 0 :=
  (c5_amended_no_validation 1 5).1 (by decide)

/-! ## Frames and pixels

A frame is a row-major grid of BGR pixel triples (OpenCV channel order:
channel 0 = blue, channel 1 = green, channel 2 = red), each channel an 8-bit
value. `frame.shape[0]` is the row count (height), `frame.shape[1]` the row
length (width). -/

/-- A pixel: (blue, green, red) channel values. -/
abbrev Pixel := Nat × Nat × Nat

/-- A frame: list of rows, each row a list of pixels. -/
abbrev Frame := List (List Pixel)

/-- Map a function over one row with explicit x coordinates starting at `x`. -/
def mapRowIdx (g : Nat → Pixel → Pixel) : Nat → List Pixel → List Pixel
  | _, [] => []
  | x, p :: ps => g x p :: mapRowIdx g (x + 1) ps

/-- Map a coordinate-aware pixel function over the rows of a frame, with
explicit y coordinates starting at `y`. -/
def mapFrameIdx (g : Nat → Nat → Pixel → Pixel) : Nat → Frame → Frame
  | _, [] => []
  | y, row :: rows => mapRowIdx (fun x p => g x y p) 0 row :: mapFrameIdx g (y + 1) rows

/-- Apply a coordinate-aware pixel transformation to every pixel of a frame. -/
def mapPixels (g : Nat → Nat → Pixel → Pixel) (f : Frame) : Frame :=
  mapFrameIdx g 0 f

/-- The pixel of frame `f` at column `x`, row `y` (None when out of bounds). -/
def pixelAt (f : Frame) (x y : Nat) : Option Pixel :=
  (f.get? y).bind (fun row => row.get? x)

/-- Height of a frame: `frame.shape[0]`. -/
def frameH (f : Frame) : Nat := f.length

/-- Width of a frame: `frame.shape[1]` (length of the first row, 0 if empty). -/
def frameW (f : Frame) : Nat := ((f.head?).map List.length).getD 0

theorem get_mapRowIdx (g : Nat → Pixel → Pixel) :
    ∀ (ps : List Pixel) (x i : Nat),
      (mapRowIdx g x ps).get? i = (ps.get? i).map (g (x + i)) := by
  intro ps
  induction ps with
  | nil => intro x i; simp [mapRowIdx]
  | cons p ps ih =>
      intro x i
      cases i with
      | zero => simp [mapRowIdx]
      | succ j =>
          have h : x + 1 + j = x + (j + 1) := by omega
          calc (mapRowIdx g x (p :: ps)).get? (j + 1)
              = (mapRowIdx g (x + 1) ps).get? j := rfl
            _ = (ps.get? j).map (g (x + 1 + j)) := ih (x + 1) j
            _ = (ps.get? j).map (g (x + (j + 1))) := by rw [h]

theorem get_mapFrameIdx (g : Nat → Nat → Pixel → Pixel) :
    ∀ (f : Frame) (y i : Nat),
      (mapFrameIdx g y f).get? i = (f.get? i).map (mapRowIdx (fun x p => g x (y + i) p) 0) := by
  intro f
  induction f with
  | nil => intro y i; simp [mapFrameIdx]
  | cons row rows ih =>
      intro y i
      cases i with
      | zero => simp [mapFrameIdx]
      | succ j =>
          have h : y + 1 + j = y + (j + 1) := by omega
          calc (mapFrameIdx g y (row :: rows)).get? (j + 1)
              = (mapFrameIdx g (y + 1) rows).get? j := rfl
            _ = (rows.get? j).map (mapRowIdx (fun x p => g x (y + 1 + j) p) 0) := ih (y + 1) j
            _ = (rows.get? j).map (mapRowIdx (fun x p => g x (y + (j + 1)) p) 0) := by rw [h]

theorem pixelAt_mapPixels (g : Nat → Nat → Pixel → Pixel) (f : Frame) (x y : Nat) :
    pixelAt (mapPixels g f) x y = (pixelAt f x y).map (g x y) := by
  unfold pixelAt mapPixels
  rw [get_mapFrameIdx]
  cases f.get? y with
  | none => simp
  | some row =>
      simp only [Nat.zero_add]
      show (mapRowIdx (fun x p => g x y p) 0 row).get? x = Option.map (g x y) (row.get? x)
      rw [get_mapRowIdx]
      simp

/-! ## Frame Effect Applicator

Sources: `apply_object_effects` in src/python-video-fix.py:142-177 and
`BrowserCompatibleVideoProcessor._apply_opencv_effects` in
src/ultimate-video-processor.py:221-253.  The two functions have identical
structure and differ only in constants (blend weights 0.9/0.1 vs 0.95/0.05,
overlay intensity 30 vs 20, rectangle inset 10/thickness 3 vs 5/thickness 2,
text origin (30,50) vs (20,40)), so the embedding is parameterized.

Modelling choices for the external OpenCV calls:
  - `cv2.addWeighted(src1, a, src2, b, 0)` computes per channel
    `saturate(round(a*c1 + b*c2))`; the weights here are exact decimals so the
    value is `round((num*c + (den-num)*ov) / den)` with `num/den` the first
    weight; rounding is modelled as round-half-up (all concrete values used in
    theorems below are tie-free, so the tie-breaking mode is immaterial).
  - `cv2.rectangle(img, p1, p2, color, t)` mutates `img` in place, painting the
    pixels within the border band of the rectangle; the raster is modelled as
    the set of pixels within distance 1 of the ideal rectangle path.
  - `cv2.putText(img, "PROCESSED", org, ...)` mutates `img` in place, painting
    glyph pixels inside the text bounding box anchored at the baseline origin;
    the glyph raster is internal to OpenCV and is modelled as overwriting the
    bounding box with the text color. Every theorem below depends only on the
    fact that the touched region is a fixed constant region.
-/

/-- Constants distinguishing `apply_object_effects` from `_apply_opencv_effects`. -/
structure EffectParams where
  num : Nat
  den : Nat
  tint : Nat
  rectInset : Nat
  rectHalo : Nat
  wmX0 : Nat
  wmX1 : Nat
  wmY0 : Nat
  wmY1 : Nat

/-- Constants of `apply_object_effects` (src/python-video-fix.py:142-177):
addWeighted 0.9/0.1, overlay value 30, rectangle (10,10)-(W-10,H-10) thickness 3,
text origin (30,50). -/
def fixParams : EffectParams :=
  { num := 9, den := 10, tint := 30, rectInset := 10, rectHalo := 1,
    wmX0 := 30, wmX1 := 230, wmY0 := 28, wmY1 := 52 }

/-- Constants of `_apply_opencv_effects` (src/ultimate-video-processor.py:221-253):
addWeighted 0.95/0.05, overlay value 20, rectangle (5,5)-(W-5,H-5) thickness 2,
text origin (20,40). -/
def ultParams : EffectParams :=
  { num := 95, den := 100, tint := 20, rectInset := 5, rectHalo := 1,
    wmX0 := 20, wmX1 := 220, wmY0 := 18, wmY1 := 42 }

/-- One channel of `cv2.addWeighted(frame, num/den, overlay, (den-num)/den, 0)`:
round-half-up of `(num*c + (den-num)*ov)/den`, saturated to 255. -/
def blendCh (P : EffectParams) (c ov : Nat) : Nat :=
  min 255 ((P.num * c + (P.den - P.num) * ov + P.den / 2) / P.den)

/-- The person effect: blend a uniform overlay whose blue channel (channel 0) is
`P.tint` and whose other channels are 0 (`blue_overlay[:, :, 0] = tint`). -/
def personBlend (P : EffectParams) (f : Frame) : Frame :=
  mapPixels (fun _ _ p => (blendCh P p.1 P.tint, blendCh P p.2.1 0, blendCh P p.2.2 0)) f

/-- The animal effect: blend a uniform overlay whose green channel (channel 1)
is `P.tint` (`green_overlay[:, :, 1] = tint`). -/
def animalBlend (P : EffectParams) (f : Frame) : Frame :=
  mapPixels (fun _ _ p => (blendCh P p.1 0, blendCh P p.2.1 P.tint, blendCh P p.2.2 0)) f

/-- Whether coordinate `c` is within `halo` of the line coordinate `target`. -/
def nearLine (c target halo : Nat) : Bool :=
  decide (target ≤ c + halo ∧ c ≤ target + halo)

/-- Modelled raster of the `cv2.rectangle` border band for the rectangle
(inset,inset)-(W-inset,H-inset). -/
def onRectBorder (P : EffectParams) (W H x y : Nat) : Bool :=
  (nearLine x P.rectInset P.rectHalo || nearLine x (W - P.rectInset) P.rectHalo ||
   nearLine y P.rectInset P.rectHalo || nearLine y (H - P.rectInset) P.rectHalo) &&
  decide (P.rectInset ≤ x + P.rectHalo ∧ x ≤ W - P.rectInset + P.rectHalo ∧
          P.rectInset ≤ y + P.rectHalo ∧ y ≤ H - P.rectInset + P.rectHalo)

/-- The car effect: `cv2.rectangle(img, (inset,inset), (W-inset,H-inset), (0,0,255), t)`,
painting the border band red (BGR (0,0,255)). In-place mutation of its argument. -/
def carRectDraw (P : EffectParams) (f : Frame) : Frame :=
  mapPixels (fun x y p => if onRectBorder P (frameW f) (frameH f) x y then (0, 0, 255) else p) f

/-- Whether (x,y) lies in the modelled bounding box of the watermark text. -/
def inWmBox (P : EffectParams) (x y : Nat) : Bool :=
  decide (P.wmX0 ≤ x ∧ x < P.wmX1 ∧ P.wmY0 ≤ y ∧ y < P.wmY1)

/-- The watermark: `cv2.putText(img, "PROCESSED", org, ..., (255,255,255), 2)`,
modelled as painting the text bounding box white. In-place mutation. -/
def watermarkDraw (P : EffectParams) (f : Frame) : Frame :=
  mapPixels (fun x y p => if inWmBox P x y then (255, 255, 255) else p) f

/-- Buffer state of the applicator body: the contents of the caller's input
buffer (`frame`), the contents of the buffer currently named `processed_frame`,
and whether `processed_frame` aliases the input buffer. -/
structure EffState where
  input : Frame
  processed : Frame
  aliased : Bool

/-- Semantics of an in-place OpenCV call on `processed_frame`: the caller's
buffer also changes exactly when `processed_frame` aliases it. -/
def inPlace (g : Frame → Frame) (st : EffState) : EffState :=
  { input := if st.aliased then g st.input else st.input,
    processed := g st.processed,
    aliased := st.aliased }

/-- Fault oracle: which of the four effect steps inside the `try` block raises
an exception if executed. -/
structure FaultSpec where
  person : Bool
  car : Bool
  animal : Bool
  watermark : Bool

/-- The fault oracle under which no step raises. -/
def noFault : FaultSpec := ⟨false, false, false, false⟩

/-- One guarded effect step: skipped when its label test is false, raising
(error carrying the state at the raise point) when the fault oracle says so,
otherwise performing its action. -/
def effStep (cond fault : Bool) (act : EffState → EffState) (st : EffState) :
    Except EffState EffState :=
  if cond then (if fault then .error st else .ok (act st)) else .ok st

/-- Exception-propagating semantics of the `try` body shared by
`apply_object_effects` and `_apply_opencv_effects`: starting from
`processed_frame = frame.copy()` (a fresh non-aliasing buffer), conditionally
apply the person blend (rebinding `processed_frame` to the new array returned
by `cv2.addWeighted`), the car rectangle (in place), the animal blend
(rebinding), then unconditionally the watermark (in place). An error carries
the buffer state at the point the exception was raised. -/
def applyBodyExc (P : EffectParams) (ft : FaultSpec) (frame : Frame)
    (labels : List String) : Except EffState EffState :=
  (effStep (labels.contains "person") ft.person
      (fun st => { st with processed := personBlend P st.processed, aliased := false })
      { input := frame, processed := frame, aliased := false }).bind fun st =>
  (effStep (labels.contains "car") ft.car (inPlace (carRectDraw P)) st).bind fun st =>
  (effStep (labels.contains "animal") ft.animal
      (fun st => { st with processed := animalBlend P st.processed, aliased := false }) st).bind fun st =>
  effStep true ft.watermark (inPlace (watermarkDraw P)) st

/-- Full run of the applicator: on normal completion return `processed_frame`;
on an exception the bare `except` handler returns the variable `frame`, i.e.
the current contents of the caller's input buffer. The second component is the
final contents of the caller's input buffer in either case. -/
def applyEffectsRun (P : EffectParams) (ft : FaultSpec) (frame : Frame)
    (labels : List String) : Frame × Frame :=
  match applyBodyExc P ft frame labels with
  | .ok st => (st.processed, st.input)
  | .error st => (st.input, st.input)

/-- Embedding of `apply_object_effects` (src/python-video-fix.py:142-177). -/
def apply_object_effects (ft : FaultSpec) (frame : Frame) (labels : List String) : Frame :=
  (applyEffectsRun fixParams ft frame labels).1

/-- Embedding of `_apply_opencv_effects` (src/ultimate-video-processor.py:221-253). -/
def applyOpencvEffects (ft : FaultSpec) (frame : Frame) (labels : List String) : Frame :=
  (applyEffectsRun ultParams ft frame labels).1

/-- Final contents of the caller's input buffer after a run of the applicator. -/
def inputAfterEffects (P : EffectParams) (ft : FaultSpec) (frame : Frame)
    (labels : List String) : Frame :=
  (applyEffectsRun P ft frame labels).2

/-- The state carried by either outcome of the applicator body. -/
def bodyState : Except EffState EffState → EffState
  | .ok st => st
  | .error st => st

/-- Through every step of the body, the caller's input buffer keeps its original
contents and `processed_frame` never aliases it: each blend step rebinds
`processed_frame` to a fresh array, and each in-place step targets the
non-aliasing `processed_frame` buffer. -/
theorem applyBody_input_invariant (P : EffectParams) (ft : FaultSpec) (frame : Frame)
    (labels : List String) :
    (bodyState (applyBodyExc P ft frame labels)).input = frame ∧
    (bodyState (applyBodyExc P ft frame labels)).aliased = false := by
  obtain ⟨fp, fc, fa, fw⟩ := ft
  unfold applyBodyExc
  cases labels.contains "person" <;> cases labels.contains "car" <;>
    cases labels.contains "animal" <;> cases fp <;> cases fc <;> cases fa <;> cases fw <;>
    simp [effStep, inPlace, Except.bind, bodyState]

/-- Whether the applicator body raised an exception. -/
def faulted : Except EffState EffState → Bool
  | .ok _ => false
  | .error _ => true

/-- The final contents of the caller's buffer equal the state the body carries. -/
theorem applyRun_snd (P : EffectParams) (ft : FaultSpec) (frame : Frame)
    (labels : List String) :
    (applyEffectsRun P ft frame labels).2 = (bodyState (applyBodyExc P ft frame labels)).input := by
  unfold applyEffectsRun bodyState
  cases applyBodyExc P ft frame labels <;> rfl

/-- On a fault the handler returns the caller's buffer, whose contents are the
original frame. -/
theorem applyRun_fault (P : EffectParams) (ft : FaultSpec) (frame : Frame)
    (labels : List String) (h : faulted (applyBodyExc P ft frame labels) = true) :
    (applyEffectsRun P ft frame labels).1 = frame := by
  have hinv := (applyBody_input_invariant P ft frame labels).1
  unfold applyEffectsRun
  unfold bodyState at hinv
  unfold faulted at h
  cases he : applyBodyExc P ft frame labels with
  | ok st => rw [he] at h; exact absurd h (by simp)
  | error st => rw [he] at hinv; exact hinv

/-- C3: the effect applicator never raises — in the embedding both
`apply_object_effects` and `_apply_opencv_effects` are total `Frame`-valued
functions for every fault oracle, because the bare `except` handler covers
every exception class — and whenever the body faults at any step, the call
returns the original unmodified frame. -/
theorem c3_fault_swallowed_returns_original (ft : FaultSpec) (frame : Frame)
    (labels : List String) :
    (faulted (applyBodyExc fixParams ft frame labels) = true →
        apply_object_effects ft frame labels = frame) ∧
    (faulted (applyBodyExc ultParams ft frame labels) = true →
        applyOpencvEffects ft frame labels = frame) :=
  ⟨fun h => applyRun_fault fixParams ft frame labels h,
   fun h => applyRun_fault ultParams ft frame labels h⟩

/-- Witness for C3: under a fault oracle that makes the watermark step raise,
both applicators return the original frame `[[(1,2,3)]]`. -/
theorem c3_fault_witness :
    faulted (applyBodyExc fixParams ⟨false, false, false, true⟩ [[(1, 2, 3)]] []) = true ∧
    apply_object_effects ⟨false, false, false, true⟩ [[(1, 2, 3)]] [] = [[(1, 2, 3)]] ∧
    applyOpencvEffects ⟨false, false, false, true⟩ [[(1, 2, 3)]] [] = [[(1, 2, 3)]] :=
  ⟨by decide,
   (c3_fault_swallowed_returns_original ⟨false, false, false, true⟩ [[(1, 2, 3)]] []).1 (by decide),
   (c3_fault_swallowed_returns_original ⟨false, false, false, true⟩ [[(1, 2, 3)]] []).2 (by decide)⟩

/-- Shared proof for C8: with none of the three labels present, the body is
just the watermark step, which either faults (returning the original frame) or
repaints only the watermark box, so every pixel outside the box is unchanged. -/
theorem applyRun_no_labels (P : EffectParams) (ft : FaultSpec) (frame : Frame)
    (labels : List String) (hp : labels.contains "person" = false)
    (hc : labels.contains "car" = false) (ha : labels.contains "animal" = false)
    (x y : Nat) (hxy : inWmBox P x y = false) :
    pixelAt (applyEffectsRun P ft frame labels).1 x y = pixelAt frame x y := by
  unfold applyEffectsRun applyBodyExc
  rw [hp, hc, ha]
  cases hw : ft.watermark with
  | true => simp [effStep, Except.bind]
  | false =>
      simp only [effStep, Except.bind, Bool.false_eq_true, if_false, if_true,
        ite_true, ite_false, inPlace]
      unfold watermarkDraw
      rw [pixelAt_mapPixels]
      cases pixelAt frame x y <;> simp [hxy]

/-- C8: for every frame, every fault oracle and every label set containing none
of "person", "car", "animal", both effect applicators leave every pixel outside
the constant watermark region identical to the input. -/
theorem c8_unmatched_labels_watermark_only (ft : FaultSpec) (frame : Frame)
    (labels : List String) (hp : labels.contains "person" = false)
    (hc : labels.contains "car" = false) (ha : labels.contains "animal" = false) :
    (∀ x y, inWmBox fixParams x y = false →
        pixelAt (apply_object_effects ft frame labels) x y = pixelAt frame x y) ∧
    (∀ x y, inWmBox ultParams x y = false →
        pixelAt (applyOpencvEffects ft frame labels) x y = pixelAt frame x y) :=
  ⟨fun x y hxy => applyRun_no_labels fixParams ft frame labels hp hc ha x y hxy,
   fun x y hxy => applyRun_no_labels ultParams ft frame labels hp hc ha x y hxy⟩

/-- Witness for C8 at label set `["tree"]`, a 1-by-1 frame and pixel (0,0),
which lies outside both watermark boxes. -/
theorem c8_unmatched_labels_witness :
    (["tree"].contains "person" = false) ∧
    pixelAt (apply_object_effects noFault [[(5, 6, 7)]] ["tree"]) 0 0 =
      pixelAt [[(5, 6, 7)]] 0 0 ∧
    pixelAt (applyOpencvEffects noFault [[(5, 6, 7)]] ["tree"]) 0 0 =
      pixelAt [[(5, 6, 7)]] 0 0 :=
  ⟨by decide,
   (c8_unmatched_labels_watermark_only noFault [[(5, 6, 7)]] ["tree"]
      (by decide) (by decide) (by decide)).1 0 0 (by decide),
   (c8_unmatched_labels_watermark_only noFault [[(5, 6, 7)]] ["tree"]
      (by decide) (by decide) (by decide)).2 0 0 (by decide)⟩

/-- C9: the effect applicators are not idempotent — on the 1-by-1 black frame
with label set `["person"]`, applying the effects twice yields a different
frame than applying them once, because the blue tint blends compound
(fix variant: blue channel 0 to 3 to 6; ultimate variant: 0 to 1 to 2); this
exhibits the frame and label set the claim requires. -/
theorem c9_not_idempotent :
    apply_object_effects noFault (apply_object_effects noFault [[(0, 0, 0)]] ["person"]) ["person"] ≠
      apply_object_effects noFault [[(0, 0, 0)]] ["person"] ∧
    applyOpencvEffects noFault (applyOpencvEffects noFault [[(0, 0, 0)]] ["person"]) ["person"] ≠
      applyOpencvEffects noFault [[(0, 0, 0)]] ["person"] := by
  decide

/-- C10: the applicators never mutate the caller's frame: all drawing happens
on the copied buffer (`processed_frame = frame.copy()`), the blend steps rebind
`processed_frame` to fresh arrays, and the in-place rectangle/text calls target
the non-aliasing copy, so after the call — on both the success path and the
fault path — the caller's buffer holds its original contents bit for bit. -/
theorem c10_input_frame_never_mutated (ft : FaultSpec) (frame : Frame)
    (labels : List String) :
    inputAfterEffects fixParams ft frame labels = frame ∧
    inputAfterEffects ultParams ft frame labels = frame := by
  constructor <;>
    · unfold inputAfterEffects
      rw [applyRun_snd]
      exact (applyBody_input_invariant _ ft frame labels).1

/-! ## Encoder strategies and orchestrators

The two strategy variants of the spec: the external transcoder (ffmpeg,
Variant B) and the frame-loop writer (OpenCV, Variant A). Each orchestrator is
embedded as a function from an environment — the outcomes of the external
calls it makes — to the ordered list of strategies it attempts plus its final
success flag. -/

/-- An encoder strategy: the external transcoder (Variant B of the spec) or
the OpenCV frame-loop writer (Variant A). -/
inductive Strategy
  | ffmpegStrat
  | opencvStrat
deriving DecidableEq

/-- Environment of `BrowserCompatibleVideoProcessor.process_video`
(src/ultimate-video-processor.py:255-283): the result of the
`check_ffmpeg_available` probe and of each strategy, were it run. -/
structure UltEnv where
  ffmpegAvailable : Bool
  ffmpegSucceeds : Bool
  opencvSucceeds : Bool

/-- Embedding of `process_video` (src/ultimate-video-processor.py:263-278):
if `check_ffmpeg_available()` then try `process_with_ffmpeg`, returning on
success; otherwise (unavailable, or ffmpeg failed) try
`process_with_opencv_fallback`. Returns the attempted strategies in order and
the overall success flag. -/
def process_video_attempts (e : UltEnv) : List Strategy × Bool :=
  if e.ffmpegAvailable then
    if e.ffmpegSucceeds then ([Strategy.ffmpegStrat], true)
    else ([Strategy.ffmpegStrat, Strategy.opencvStrat], e.opencvSucceeds)
  else ([Strategy.opencvStrat], e.opencvSucceeds)

/-- Environment of `process_video_advanced` (src/python-video-fix.py:21-100).
`ffmpegAvailable` records whether the external tool is present on the host;
the function never consults it. `m1Raises` is whether the Method-1 OpenCV
loop raises; `tempExistsM1`/`tempBigM1` are the `os.path.exists` and
`getsize >= 1000` checks after Method 1; `ffmpegResult` is the value of
`encode_with_ffmpeg`; `tempExistsM2` is the existence check after Method 2. -/
structure AdvEnv where
  ffmpegAvailable : Bool
  capOpens : Bool
  m1Raises : Bool
  tempExistsM1 : Bool
  tempBigM1 : Bool
  ffmpegResult : Bool
  tempExistsM2 : Bool

/-- Embedding of `process_video_advanced` (src/python-video-fix.py:21-100):
Method 1 (the OpenCV H.264 frame loop, Variant A) is attempted first,
unconditionally; `encode_with_ffmpeg` (Variant B) only when Method 1 raised or
its output is missing or under 1000 bytes (line 82); finally the output is
renamed on success. -/
def process_video_advanced_attempts (e : AdvEnv) : List Strategy × Bool :=
  if e.capOpens then
    if e.m1Raises || !e.tempExistsM1 || !e.tempBigM1 then
      ([Strategy.opencvStrat, Strategy.ffmpegStrat], e.ffmpegResult && e.tempExistsM2)
    else
      ([Strategy.opencvStrat], true)
  else ([], false)

/-- Environment of `create_browser_compatible_video`
(src/simple-video-processor.py:22-38): the outcome of each strategy. -/
structure SimpleEnv where
  ffmpegSucceeds : Bool
  opencvSucceeds : Bool

/-- Embedding of `create_browser_compatible_video`
(src/simple-video-processor.py:27-34): try `try_ffmpeg_safe_encode` first —
with no availability probe; a missing tool simply makes it return False — then
`try_opencv_basic_encode`. -/
def create_browser_compatible_attempts (e : SimpleEnv) : List Strategy × Bool :=
  if e.ffmpegSucceeds then ([Strategy.ffmpegStrat], true)
  else ([Strategy.ffmpegStrat, Strategy.opencvStrat], e.opencvSucceeds)

/-- A run of `process_video_advanced` on a host where ffmpeg is available and
in which the Method-1 OpenCV loop succeeds with a large enough output. -/
def advFfmpegAvailableEnv : AdvEnv :=
  { ffmpegAvailable := true, capOpens := true, m1Raises := false,
    tempExistsM1 := true, tempBigM1 := true, ffmpegResult := true,
    tempExistsM2 := true }

/-- Counterexample for C1: in `process_video_advanced` the frame-loop writer
(Variant A) is attempted first and the external transcoder is never attempted,
even on a host where the external tool is available — so it is false that on
every pipeline run Variant B is attempted before Variant A whenever the tool
is available. -/
theorem c1_counterexample_advanced_tries_opencv_first :
    advFfmpegAvailableEnv.ffmpegAvailable = true ∧
    (process_video_advanced_attempts advFfmpegAvailableEnv).1 = [Strategy.opencvStrat] ∧
    Strategy.ffmpegStrat ∉ (process_video_advanced_attempts advFfmpegAvailableEnv).1 := by
  decide

/-- C1 amended: in `BrowserCompatibleVideoProcessor.process_video` the
external-transcoder strategy is attempted first exactly when the version-check
probe reports the tool available, the frame-loop strategy is attempted only on
unavailability or on the transcoder's failure, and no further strategy is
attempted once one succeeds. `process_video_advanced` uses the opposite fixed
order — the frame-loop writer first, the external transcoder only on its
failure — and `create_browser_compatible_video` attempts the external
transcoder first without any availability probe; both also stop at the first
success. -/
theorem c1_amended_strategy_orders :
    (∀ e : UltEnv,
       (e.ffmpegAvailable = true →
          (process_video_attempts e).1.head? = some Strategy.ffmpegStrat) ∧
       (e.ffmpegAvailable = false →
          (process_video_attempts e).1 = [Strategy.opencvStrat]) ∧
       (Strategy.opencvStrat ∈ (process_video_attempts e).1 →
          e.ffmpegAvailable = false ∨ e.ffmpegSucceeds = false) ∧
       (e.ffmpegAvailable = true → e.ffmpegSucceeds = true →
          (process_video_attempts e).1 = [Strategy.ffmpegStrat])) ∧
    (∀ e : AdvEnv, e.capOpens = true →
       (process_video_advanced_attempts e).1.head? = some Strategy.opencvStrat ∧
       (Strategy.ffmpegStrat ∈ (process_video_advanced_attempts e).1 →
          e.m1Raises = true ∨ e.tempExistsM1 = false ∨ e.tempBigM1 = false) ∧
       (e.m1Raises = false → e.tempExistsM1 = true → e.tempBigM1 = true →
          (process_video_advanced_attempts e).1 = [Strategy.opencvStrat])) ∧
    (∀ e : SimpleEnv,
       (create_browser_compatible_attempts e).1.head? = some Strategy.ffmpegStrat ∧
       (e.ffmpegSucceeds = true →
          (create_browser_compatible_attempts e).1 = [Strategy.ffmpegStrat])) := by
  refine ⟨fun e => ?_, fun e => ?_, fun e => ?_⟩
  · obtain ⟨a, b, c⟩ := e
    cases a <;> cases b <;> cases c <;> decide
  · obtain ⟨a, b, c, d, f, g, h⟩ := e
    cases a <;> cases b <;> cases c <;> cases d <;> cases f <;> cases g <;> cases h <;> decide
  · obtain ⟨a, b⟩ := e
    cases a <;> cases b <;> decide

/-- Witness for the amended C1: with ffmpeg available and succeeding,
`process_video` attempts only the external transcoder. -/
theorem c1_amended_witness :
    (process_video_attempts ⟨true, true, false⟩).1 = [Strategy.ffmpegStrat] :=
  (c1_amended_strategy_orders.1 ⟨true, true, false⟩).2.2.2 rfl rfl

/-! ## Temporary-file bookkeeping of the detect_video route

Source: src/fixed_video_route.py. The route creates `tmp_in` (line 16) and
`tmp_out` (line 42) with `delete=False`, and deletes them on its various exit
paths. The success path streams via `stream_and_cleanup(tmp_out.name,
tmp_in.name)` (line 147), which is referenced but not defined under src/.
Modelled from the spec: `stream_and_cleanup` deletes both the input and output
temp files once the stream completes ("deletion of both input and output temp
files guaranteed once the stream completes"). -/

/-- Environment of one `detect_video` run: extension whitelist check, whether
the source opens and decodes a first frame, whether any codec in the selection
loop yields an opened writer, whether the frame loop raises, and the existence
and size of the output file afterwards. -/
structure RouteEnv where
  extOk : Bool
  capOpens : Bool
  firstFrameOk : Bool
  writerOpens : Bool
  loopRaises : Bool
  outExists : Bool
  outSize : Nat

/-- Which of the run's two temporary files remain on disk when the call
returns or raises. -/
structure FsTrace where
  tmpIn : Bool
  tmpOut : Bool
deriving DecidableEq

/-- Number of residual temporary files. -/
def residualTempFiles (t : FsTrace) : Nat :=
  (if t.tmpIn then 1 else 0) + (if t.tmpOut then 1 else 0)

/-- Embedding of `detect_video` (src/fixed_video_route.py), tracking its exit
status (`Except.error s` = `raise HTTPException(s, ...)`) and the temp files
left on disk. Branches, in source order:
line 12-13 bad extension (nothing created yet); line 21-23 source fails to
open (`os.remove(tmp_in.name)`); line 35-39 first frame fails to decode
(remove tmp_in); line 89-92 no codec produced an opened writer — only tmp_in
is removed, `tmp_out` (created at line 42) stays on disk; line 121-127
exception in the frame loop (both removed); line 133-135 output missing
(tmp_in removed, tmp_out not on disk); line 137-141 output empty (both
removed); line 145-150 success, streaming with `stream_and_cleanup` deleting
both. -/
def detect_video_run (e : RouteEnv) : Except Nat Unit × FsTrace :=
  if !e.extOk then (Except.error 400, ⟨false, false⟩)
  else if !e.capOpens then (Except.error 400, ⟨false, false⟩)
  else if !e.firstFrameOk then (Except.error 400, ⟨false, false⟩)
  else if !e.writerOpens then (Except.error 500, ⟨false, true⟩)
  else if e.loopRaises then (Except.error 500, ⟨false, false⟩)
  else if !e.outExists then (Except.error 500, ⟨false, false⟩)
  else if e.outSize = 0 then (Except.error 500, ⟨false, false⟩)
  else (Except.ok (), ⟨false, false⟩)

/-- A run with a valid upload whose source opens and decodes but in which every
codec of the writer-selection loop fails to produce an opened writer. -/
def writerInitFailureEnv : RouteEnv :=
  { extOk := true, capOpens := true, firstFrameOk := true,
    writerOpens := false, loopRaises := false, outExists := false, outSize := 0 }

/-- C2 is violated: on the writer-initialization-failure exit of
`detect_video` (src/fixed_video_route.py:89-92) only `tmp_in` is removed, so
the run raises HTTP 500 while `tmp_out` — created at line 42 — remains on
disk: one residual temporary file instead of zero. -/
theorem c2_writer_failure_leaks_tmp_out :
    (detect_video_run writerInitFailureEnv).1 = Except.error 500 ∧
    (detect_video_run writerInitFailureEnv).2.tmpOut = true ∧
    residualTempFiles (detect_video_run writerInitFailureEnv).2 = 1 :=
  ⟨rfl, rfl, rfl⟩

/-! ## Frame-count limits of the frame-loop writers -/

/-- The guarded frame loop of the bounded writers: while
`frame_count < max_frames`, read a frame (stopping when the source is
exhausted) and emit it to the writer; returns the number of frames emitted. -/
def emitFrames : List Frame → Nat → Nat
  | _, 0 => 0
  | [], _ + 1 => 0
  | _ :: fs, n + 1 => emitFrames fs n + 1

/-- The unguarded frame loop of `detect_video`
(src/fixed_video_route.py:96-119): `while True`, stopping only when the read
fails; every decodable frame is emitted. -/
def emitAllFrames : List Frame → Nat
  | [] => 0
  | _ :: fs => emitAllFrames fs + 1

theorem emitFrames_le (fs : List Frame) : ∀ n : Nat, emitFrames fs n ≤ n := by
  induction fs with
  | nil => intro n; cases n <;> simp [emitFrames]
  | cons f fs ih =>
      intro n
      cases n with
      | zero => simp [emitFrames]
      | succ m => simpa [emitFrames] using ih m

theorem emitAllFrames_eq_length (fs : List Frame) : emitAllFrames fs = fs.length := by
  induction fs with
  | nil => simp [emitAllFrames]
  | cons f fs ih => simp [emitAllFrames, ih]

/-- Frames emitted by `process_with_opencv_fallback`
(src/ultimate-video-processor.py:186-204): `fps = min(native, 30)` (line 168),
`max_frames = min(total_frames, int(fps * 300))` (line 187), then the guarded
loop. `fpsMeta` and `totalMeta` are the FPS and frame-count metadata probed
from the source (frame rates modelled as naturals). -/
def process_with_opencv_fallback_emitted (frames : List Frame) (fpsMeta totalMeta : Nat) : Nat :=
  emitFrames frames (min totalMeta (min fpsMeta 30 * 300))

/-- Frames emitted by the loop of `detect_video` (src/fixed_video_route.py:96-119). -/
def detect_video_emitted (frames : List Frame) : Nat := emitAllFrames frames

/-- Frames emitted by `try_opencv_basic_encode`
(src/simple-video-processor.py:116-137): fixed `fps = 25`,
`max_frames = fps * 60`. -/
def try_opencv_basic_encode_emitted (frames : List Frame) : Nat :=
  emitFrames frames (25 * 60)

/-- Counterexample for C6: the frame loop of `detect_video` has no max-frames
limit — on a source yielding 7201 decodable frames at 24 FPS it emits all 7201
frames to the writer, exceeding the five-minute cap `fps * 300 = 7200` that
the bounded frame-loop writer derives from the duration and frame-rate limits. -/
theorem c6_counterexample_detect_video_unbounded :
    detect_video_emitted (List.replicate 7201 [[(0, 0, 0)]]) = 7201 ∧
    7201 > 24 * 300 := by
  refine ⟨?_, by decide⟩
  rw [detect_video_emitted, emitAllFrames_eq_length, List.length_replicate]

/-- C6 amended: the frame-loop writers of ultimate-video-processor and
simple-video-processor stop at their configured max-frames limits — emitted
frames never exceed `min(total_frames, min(fps,30) * 300)`, respectively
`25 * 60` — but the frame loop of `detect_video` is unbounded and emits
exactly every decodable frame of the source. -/
theorem c6_amended_bounded_loops :
    (∀ (frames : List Frame) (fpsMeta totalMeta : Nat),
        process_with_opencv_fallback_emitted frames fpsMeta totalMeta ≤
          min totalMeta (min fpsMeta 30 * 300)) ∧
    (∀ (frames : List Frame) (fpsMeta totalMeta : Nat),
        process_with_opencv_fallback_emitted frames fpsMeta totalMeta ≤ 30 * 300) ∧
    (∀ frames : List Frame, try_opencv_basic_encode_emitted frames ≤ 25 * 60) ∧
    (∀ frames : List Frame, detect_video_emitted frames = frames.length) := by
  refine ⟨fun frames fpsMeta totalMeta => emitFrames_le _ _,
          fun frames fpsMeta totalMeta => ?_,
          fun frames => emitFrames_le _ _,
          fun frames => emitAllFrames_eq_length frames⟩
  calc process_with_opencv_fallback_emitted frames fpsMeta totalMeta
      ≤ min totalMeta (min fpsMeta 30 * 300) := emitFrames_le _ _
    _ ≤ min fpsMeta 30 * 300 := Nat.min_le_right _ _
    _ ≤ 30 * 300 := Nat.mul_le_mul_right 300 (Nat.min_le_right _ _)

/-! ## External transcoder invocation -/

/-- Exception classes raised by `subprocess.run` and friends. -/
inductive PyExc
  | calledProcessError
  | fileNotFound
  | timeoutExpired
  | otherExc
deriving DecidableEq

/-- Embedding of `encode_with_ffmpeg` (src/python-video-fix.py:102-140). Its
input is the outcome of `subprocess.run(cmd, ..., timeout=300)`: a completed
process with its return code, or a raised exception (TimeoutExpired on
timeout, FileNotFoundError when the tool is absent). The handlers at lines
132-140 catch TimeoutExpired, FileNotFoundError and finally every Exception,
each returning False; a completed run returns `returncode == 0`. -/
def encode_with_ffmpeg_model (run : Except PyExc Int) : Except PyExc Bool :=
  match run with
  | .ok rc => if rc = 0 then .ok true else .ok false
  | .error .timeoutExpired => .ok false
  | .error .fileNotFound => .ok false
  | .error _ => .ok false

/-- Embedding of `check_ffmpeg_available`
(src/ultimate-video-processor.py:32-39). Its input is the outcome of
`subprocess.run(['ffmpeg','-version'], check=True, timeout=5)`: with
`check=True` a non-zero exit raises CalledProcessError. The handler catches
exactly (CalledProcessError, FileNotFoundError, TimeoutExpired), returning
False; any other exception class would propagate. -/
def check_ffmpeg_available_model (run : Except PyExc Unit) : Except PyExc Bool :=
  match run with
  | .ok _ => .ok true
  | .error .calledProcessError => .ok false
  | .error .fileNotFound => .ok false
  | .error .timeoutExpired => .ok false
  | .error .otherExc => .error .otherExc

/-- C7: for every outcome of the external-transcoder invocation,
`encode_with_ffmpeg` returns a value — never propagates an exception — and a
missing tool, a timeout or a non-zero exit code yield the failure value False;
likewise the availability probe `check_ffmpeg_available` turns a missing tool,
a timeout or a non-zero exit (CalledProcessError under check=True) into False
rather than an exception. -/
theorem c7_transcoder_failures_never_raise :
    (∀ run : Except PyExc Int,
       (∃ b : Bool, encode_with_ffmpeg_model run = .ok b) ∧
       (run = .error .fileNotFound ∨ run = .error .timeoutExpired →
          encode_with_ffmpeg_model run = .ok false) ∧
       (∀ rc : Int, run = .ok rc → rc ≠ 0 → encode_with_ffmpeg_model run = .ok false)) ∧
    (∀ run : Except PyExc Unit,
       run = .error .fileNotFound ∨ run = .error .timeoutExpired ∨
           run = .error .calledProcessError →
         check_ffmpeg_available_model run = .ok false) := by
  constructor
  · intro run
    refine ⟨?_, ?_, ?_⟩
    · match run with
      | .ok rc =>
          by_cases h : rc = 0
          · exact ⟨true, by simp [encode_with_ffmpeg_model, h]⟩
          · exact ⟨false, by simp [encode_with_ffmpeg_model, h]⟩
      | .error .calledProcessError => exact ⟨false, rfl⟩
      | .error .fileNotFound => exact ⟨false, rfl⟩
      | .error .timeoutExpired => exact ⟨false, rfl⟩
      | .error .otherExc => exact ⟨false, rfl⟩
    · rintro (rfl | rfl) <;> rfl
    · rintro rc rfl h
      simp [encode_with_ffmpeg_model, h]
  · rintro run (rfl | rfl | rfl) <;> rfl

/-- Witness for C7: a missing tool makes both functions return False. -/
theorem c7_transcoder_witness :
    encode_with_ffmpeg_model (.error .fileNotFound) = .ok false ∧
    check_ffmpeg_available_model (.error .fileNotFound) = .ok false :=
  ⟨(c7_transcoder_failures_never_raise.1 (.error .fileNotFound)).2.1 (Or.inl rfl),
   c7_transcoder_failures_never_raise.2 (.error .fileNotFound) (Or.inl rfl)⟩

end SiteSense
